import Mathlib

/-!
Shallow embedding of the authentication/session core of the
spotify-playlist-enhance repository, together with theorems checking the
specification's claims against it.

Sources embedded:
* src/utils/rateLimiter.ts   (RateLimiter.checkLimit, getRateConfig)
* src/utils/spotifyClient.ts (SpotifyClient.request retry loop,
                              SpotifyClient.ensureValidToken refresh merge)
* src/utils/apiCache.ts      (ApiCache.generateKey)
* src/utils/stateUtils.ts    (StateManager)
* src/utils/secureStateManager.ts (SecureStateManager)
* server.ts variants         (OAuth callback expiry stamping, /api/refresh-token)

Machine integers are modelled as Nat (JS numbers hold exact integers in the
ranges involved: epoch milliseconds and second counts are far below 2^53, and
no arithmetic here can overflow that range, so no modular reduction arises).
-/

/-! ## Rate limiter (src/utils/rateLimiter.ts) -/

/-- A limit/window pair from the `rateLimits` table (window in seconds). -/
structure RateConfig where
  limit : Nat
  window : Nat
deriving DecidableEq, Repr

/-- The `rateLimits` table of `RateLimiter`, in object-literal order. -/
def rateLimits : List (String × RateConfig) :=
  [("global", ⟨1000, 3600⟩),
   ("/me", ⟨60, 60⟩),
   ("/me/playlists", ⟨30, 60⟩),
   ("/playlists", ⟨30, 60⟩),
   ("/tracks", ⟨120, 60⟩),
   ("/search", ⟨30, 60⟩)]

/-- Default limit when no table entry matches (`defaultLimit`). -/
def defaultLimit : Nat := 100

/-- Default window when no table entry matches (`defaultWindow`, seconds). -/
def defaultWindow : Nat := 3600

/-- The `global` entry of the `rateLimits` table. -/
def globalConfig : RateConfig := ⟨1000, 3600⟩

/-- Whether `pat` occurs at the start of `l`. -/
def seqStartsWith : List Char → List Char → Bool
  | [], _ => true
  | _ :: _, [] => false
  | a :: as, b :: bs => a == b && seqStartsWith as bs

/-- Whether `pat` occurs contiguously anywhere in `hay`. -/
def containsSeq (pat : List Char) : List Char → Bool
  | [] => seqStartsWith pat []
  | b :: bs => seqStartsWith pat (b :: bs) || containsSeq pat bs

/-- JavaScript `hay.includes(pat)` on strings (substring containment). -/
def strIncludes (hay pat : String) : Bool :=
  containsSeq pat.data hay.data

/-- First element of maximal `String.length` of its first component: the head
of the JS stable sort by `b.length - a.length` (ties keep original order). -/
def pickLongest (l : List (String × RateConfig)) : Option (String × RateConfig) :=
  l.foldl
    (fun acc p =>
      match acc with
      | none => some p
      | some q => if q.1.length < p.1.length then some p else some q)
    none

/-- RateLimiter.getRateConfig: keys of `rateLimits` that `endpoint` includes,
sorted by descending length, first one wins; otherwise the defaults. -/
def getRateConfig (endpoint : String) : RateConfig :=
  match pickLongest (rateLimits.filter (fun p => strIncludes endpoint p.1)) with
  | some p => p.2
  | none => ⟨defaultLimit, defaultWindow⟩

/-- The two Redis sorted sets consulted by `checkLimit` for one user: member
scores (timestamps in seconds) of the endpoint-specific and the global window.
`zadd` members carry a random suffix, so each admission is a fresh member. -/
structure RateState where
  endpointEntries : List Nat
  globalEntries : List Nat
deriving DecidableEq, Repr

/-- The result object of `RateLimiter.checkLimit` (`resetTime` in epoch ms). -/
structure RateCheckResult where
  allowed : Bool
  remaining : Nat
  resetTime : Nat
  limit : Nat
deriving DecidableEq, Repr

/-- The Redis `multi` transaction of `RateLimiter.checkLimit` (lines 92-159)
when a backend is present and no error occurs, at time `now` (epoch seconds):
evict scores in `[0, now - window]` from both sets (the endpoint's window is
used for both, as in the source), read both cardinalities, then
unconditionally `zadd` the new timestamp into both sets; `allowed` compares
the pre-admission counts with `<=` against the limits. -/
def checkLimitStep (endpoint : String) (now : Nat) (st : RateState) :
    RateCheckResult × RateState :=
  let config := getRateConfig endpoint
  let windowStart := now - config.window
  let eEntries := st.endpointEntries.filter (fun s => decide (windowStart < s))
  let gEntries := st.globalEntries.filter (fun s => decide (windowStart < s))
  let endpointCount := eEntries.length
  let globalCount := gEntries.length
  let stAfter : RateState := ⟨eEntries ++ [now], gEntries ++ [now]⟩
  let endpointAllowed := decide (endpointCount ≤ config.limit)
  let globalAllowed := decide (globalCount ≤ globalConfig.limit)
  let allowed := endpointAllowed && globalAllowed
  let remaining := min (config.limit - endpointCount) (globalConfig.limit - globalCount)
  let resetTime := (now + config.window) * 1000
  (⟨allowed, remaining, resetTime, config.limit⟩, stAfter)

/-- The fail-open result of `checkLimit` (lines 83-90 and 160-169), built from
the current time in epoch ms. -/
def failOpenResult (nowMs : Nat) : RateCheckResult :=
  ⟨true, 999, nowMs + 3600000, 999⟩

/-- RateLimiter.checkLimit in full: with no Redis backend it returns the
fail-open result immediately; if the backend transaction raises, the catch
block returns the fail-open result; otherwise the transaction runs. The
function is total — no storage error escapes to the caller. -/
def checkLimit (hasBackend backendFails : Bool) (endpoint : String) (now : Nat)
    (st : RateState) : RateCheckResult × RateState :=
  if !hasBackend then (failOpenResult (now * 1000), st)
  else if backendFails then (failOpenResult (now * 1000), st)
  else checkLimitStep endpoint now st

/-- State and results after `n` consecutive `checkLimit` calls for the same
(endpoint, user) at the same second `now`, starting from empty windows. -/
def runCalls (endpoint : String) (now : Nat) : Nat → RateState × List RateCheckResult
  | 0 => (⟨[], []⟩, [])
  | n + 1 =>
    let prev := runCalls endpoint now n
    let step := checkLimitStep endpoint now prev.1
    (step.2, prev.2 ++ [step.1])

/-- The result of the `k`-th call (1-based) in the `runCalls` sequence. -/
def callResult (endpoint : String) (now k : Nat) : RateCheckResult :=
  (checkLimitStep endpoint now (runCalls endpoint now (k - 1)).1).1

/-! ## Upstream API client retry loop (src/utils/spotifyClient.ts) -/

/-- Outcome of a `SpotifyClient.request` call sequence. `callsMade` counts the
HTTP calls actually issued to the upstream API. `streamEnded` marks that the
scripted upstream ran out of responses while the client was still retrying. -/
inductive ReqOutcome
  | rateLimited (callsMade : Nat)
  | cached (callsMade : Nat)
  | success (callsMade : Nat)
  | apiError (status : Nat) (callsMade : Nat)
  | streamEnded (callsMade : Nat)
deriving DecidableEq, Repr

/-- SpotifyClient.request (lines 100-190) against a scripted upstream that
answers consecutive calls with the HTTP status codes in `upstream`. Per call:
the rate limiter is consulted (`rateAllowed` models its verdict); for a cached
GET with `useCache` the cache is consulted (`cacheHit`); a valid token is
ensured (token refresh is modelled as succeeding, which is the scenario of the
claim and does not influence the retry logic); then the HTTP call is issued.
A 2xx response returns the body; on 401 the stored token is force-expired and
`request` re-enters itself with `useCache := false` — the source carries no
retry counter, so every further 401 re-enters again; any other status throws
an upstream error. -/
def requestModel (rateAllowed cacheHit : Bool) :
    Bool → List Nat → Nat → ReqOutcome
  | useCache, [], calls =>
    if !rateAllowed then .rateLimited calls
    else if useCache && cacheHit then .cached calls
    else .streamEnded calls
  | useCache, status :: rest, calls =>
    if !rateAllowed then .rateLimited calls
    else if useCache && cacheHit then .cached calls
    else if 200 ≤ status ∧ status < 300 then .success (calls + 1)
    else if status = 401 then requestModel rateAllowed cacheHit false rest (calls + 1)
    else .apiError status (calls + 1)

/-! ## Date formatting (JS runtime collaborators of the callback handlers) -/

/-- Civil date (year, month, day) from a count of days since 1970-01-01,
following the standard Gregorian conversion used by JS `Date` (UTC). -/
def civilFromDays (days : Nat) : Nat × Nat × Nat :=
  let z := days + 719468
  let era := z / 146097
  let doe := z % 146097
  let yoe := (doe - doe / 1460 + doe / 36524 - doe / 146096) / 365
  let y := yoe + era * 400
  let doy := doe - (365 * yoe + yoe / 4 - yoe / 100)
  let mp := (5 * doy + 2) / 153
  let d := doy - (153 * mp + 2) / 5 + 1
  let m := if mp < 10 then mp + 3 else mp - 9
  (if m ≤ 2 then y + 1 else y, m, d)

/-- Decimal rendering left-padded with zeros to width 2. -/
def pad2 (n : Nat) : String :=
  if n < 10 then "0" ++ toString n else toString n

/-- Decimal rendering left-padded with zeros to width 3. -/
def pad3 (n : Nat) : String :=
  if n < 10 then "00" ++ toString n
  else if n < 100 then "0" ++ toString n
  else toString n

/-- Decimal rendering left-padded with zeros to width 4. -/
def pad4 (n : Nat) : String :=
  if n < 10 then "000" ++ toString n
  else if n < 100 then "00" ++ toString n
  else if n < 1000 then "0" ++ toString n
  else toString n

/-- JS `new Date(ms).toISOString()` for a non-negative epoch-millisecond
value: the UTC timestamp in the fixed 24-character ISO-8601 form
YYYY-MM-DDTHH:MM:SS.mmmZ. -/
def toISOString (ms : Nat) : String :=
  let days := ms / 86400000
  let rem := ms % 86400000
  let c := civilFromDays days
  pad4 c.1 ++ "-" ++ pad2 c.2.1 ++ "-" ++ pad2 c.2.2 ++ "T" ++
    pad2 (rem / 3600000) ++ ":" ++ pad2 (rem % 3600000 / 60000) ++ ":" ++
    pad2 (rem % 60000 / 1000) ++ "." ++ pad3 (rem % 1000) ++ "Z"

/-- Modelled from the spec: JS `new Date(ms).toLocaleString()` is a
display-formatted, locale-dependent string produced by the runtime (it is not
code of this repository). It is modelled here as the en-US default used by
Node, M/D/YYYY, h:mm:ss AM|PM; the claims only rely on it being a display
format rather than a machine-parseable ISO-8601 timestamp. -/
def toLocaleString (ms : Nat) : String :=
  let days := ms / 86400000
  let rem := ms % 86400000
  let c := civilFromDays days
  let hh := rem / 3600000
  let h12 := if hh % 12 = 0 then 12 else hh % 12
  let suffix := if hh < 12 then " AM" else " PM"
  toString c.2.1 ++ "/" ++ toString c.2.2 ++ "/" ++ toString c.1 ++ ", " ++
    toString h12 ++ ":" ++ pad2 (rem % 3600000 / 60000) ++ ":" ++
    pad2 (rem % 60000 / 1000) ++ suffix

/-- Whether a character is a decimal digit. -/
def isDigitChar (c : Char) : Bool :=
  '0' ≤ c && c ≤ '9'

/-- Whether a string has the machine-parseable 24-character ISO-8601 UTC shape
YYYY-MM-DDTHH:MM:SS.mmmZ (the shape produced by `Date.prototype.toISOString`). -/
def isISO8601 (s : String) : Bool :=
  match s.data with
  | [y1, y2, y3, y4, h1, m1, m2, h2, d1, d2, t, hh1, hh2, c1, mi1, mi2, c2,
     s1, s2, dot, f1, f2, f3, z] =>
    isDigitChar y1 && isDigitChar y2 && isDigitChar y3 && isDigitChar y4 &&
    h1 == '-' && isDigitChar m1 && isDigitChar m2 && h2 == '-' &&
    isDigitChar d1 && isDigitChar d2 && t == 'T' &&
    isDigitChar hh1 && isDigitChar hh2 && c1 == ':' &&
    isDigitChar mi1 && isDigitChar mi2 && c2 == ':' &&
    isDigitChar s1 && isDigitChar s2 && dot == '.' &&
    isDigitChar f1 && isDigitChar f2 && isDigitChar f3 && z == 'Z'
  | _ => false

/-! ## Token records and the OAuth callback / refresh merges -/

/-- The TokenData record persisted by the token store (src/types/types.d.ts):
the provider's token-endpoint response fields plus the derived `expires_at`
stamp. -/
structure TokenData where
  access_token : String
  token_type : String
  scope : String
  expires_in : Nat
  refresh_token : String
  expires_at : String
deriving DecidableEq, Repr

/-- A provider refresh response as `Partial<TokenData>` (spotifyClient.ts
line 77): every field may be absent. `none` models an absent JSON field. -/
structure RefreshResponse where
  access_token : Option String
  token_type : Option String
  scope : Option String
  expires_in : Option Nat
  refresh_token : Option String
deriving DecidableEq, Repr

/-- JS `x || fallback` on an optional string: absent and the empty string are
falsy and select the fallback. -/
def jsOrString (x : Option String) (fallback : String) : String :=
  match x with
  | some s => if s = "" then fallback else s
  | none => fallback

/-- JS `x || fallback` on an optional number: absent and 0 are falsy and
select the fallback. -/
def jsOrNat (x : Option Nat) (fallback : Nat) : Nat :=
  match x with
  | some n => if n = 0 then fallback else n
  | none => fallback

/-- The merge in SpotifyClient.ensureValidToken (spotifyClient.ts lines
80-87): spread `tokens` then `newTokens` (response fields override when
present), then explicitly `refresh_token := newTokens.refresh_token ||
tokens.refresh_token` and `expires_at := new Date(Date.now() +
(newTokens.expires_in || 3600) * 1000).toISOString()`. `now` is epoch ms. -/
def mergeRefreshedTokens (now : Nat) (tokens : TokenData)
    (resp : RefreshResponse) : TokenData :=
  { access_token := resp.access_token.getD tokens.access_token
    token_type := resp.token_type.getD tokens.token_type
    scope := resp.scope.getD tokens.scope
    expires_in := resp.expires_in.getD tokens.expires_in
    refresh_token := jsOrString resp.refresh_token tokens.refresh_token
    expires_at := toISOString (now + jsOrNat resp.expires_in 3600 * 1000) }

/-- The merge in the /api/refresh-token handler (server.ts Redis variant,
lines 439-448): the response is used as the new record; a missing (or falsy)
`refresh_token` is replaced by the stored one, and `expires_at := new
Date(Date.now() + expires_in * 1000).toISOString()`. -/
def refreshHandlerMerge (now : Nat) (stored : TokenData)
    (resp : RefreshResponse) (respAccess : String) (respExpiresIn : Nat) :
    TokenData :=
  { access_token := respAccess
    token_type := resp.token_type.getD stored.token_type
    scope := resp.scope.getD stored.scope
    expires_in := respExpiresIn
    refresh_token := jsOrString resp.refresh_token stored.refresh_token
    expires_at := toISOString (now + respExpiresIn * 1000) }

/-- The `expires_at` stamped by the OAuth callback of the Redis server
variant (server.ts lines 263-266): ISO-8601 via `toISOString`. `now` epoch
ms, `expiresIn` seconds. -/
def callbackExpiresAtRedisVariant (now expiresIn : Nat) : String :=
  toISOString (now + expiresIn * 1000)

/-- The `expires_at` stamped by the OAuth callbacks of the file-backed server
variants (src/unnamed/part_001 lines 213-216, part_002 lines 187-189,
src/get-spotify-auth.ts lines 255-258) before the record is written to the
token file: a display string via `toLocaleString`. -/
def callbackExpiresAtFileVariant (now expiresIn : Nat) : String :=
  toLocaleString (now + expiresIn * 1000)

/-! ## Association-list operations modelling JS `Map` / keyed object state -/

/-- Map.set / object property assignment: replace the first binding of `k`,
else append. -/
def alSet (k : String) (v : Nat) : List (String × Nat) → List (String × Nat)
  | [] => [(k, v)]
  | (k', v') :: rest =>
    if k' = k then (k, v) :: rest else (k', v') :: alSet k v rest

/-- Map.get / property read. -/
def alGet (k : String) : List (String × Nat) → Option Nat
  | [] => none
  | (k', v') :: rest => if k' = k then some v' else alGet k rest

/-- Map.delete / `delete obj[k]`: remove the first binding of `k`. -/
def alRemove (k : String) : List (String × Nat) → List (String × Nat)
  | [] => []
  | (k', v') :: rest =>
    if k' = k then rest else (k', v') :: alRemove k rest

/-! ## StateManager (src/utils/stateUtils.ts): memory map + state file -/

/-- StateManager state: the in-memory `stateStore` map (token to the
`timestamp` of its StoredState, epoch ms) and the single-slot state file
(`stateFile` holds the file's content when the file exists). -/
structure SMState where
  stateStore : List (String × Nat)
  stateFile : Option String
deriving DecidableEq, Repr

/-- StateManager.cleanExpiredStates: drop memory entries with
`now - timestamp > expirationMs`. -/
def smCleanExpired (expirationMs now : Nat) (store : List (String × Nat)) :
    List (String × Nat) :=
  store.filter (fun p => decide (now - p.2 ≤ expirationMs))

/-- StateManager.saveState at time `now`: clean expired entries, store the
token in memory with the current timestamp, and overwrite the state file with
the token. -/
def smSaveState (expirationMs : Nat) (st : SMState) (s : String) (now : Nat) :
    SMState :=
  { stateStore := alSet s now (smCleanExpired expirationMs now st.stateStore)
    stateFile := some s }

/-- StateManager.verifyState at time `now` (lines 72-127): a memory hit that
is unexpired returns true without removing the entry; an expired memory hit is
deleted and returns false; on a memory miss the state file is compared — a
match returns true and re-registers the token in memory with a fresh
timestamp (the file stores no timestamp, so no expiry check is possible). -/
def smVerifyState (expirationMs : Nat) (st : SMState) (s : String)
    (now : Nat) : Bool × SMState :=
  match alGet s st.stateStore with
  | some ts =>
    if expirationMs < now - ts then
      (false, { st with stateStore := alRemove s st.stateStore })
    else
      (true, st)
  | none =>
    match st.stateFile with
    | some content =>
      if content = s then
        (true, { st with stateStore := alSet s now st.stateStore })
      else (false, st)
    | none => (false, st)

/-! ## SecureStateManager (src/utils/secureStateManager.ts) -/

/-- The `stateExpirySeconds` TTL of SecureStateManager (600 s). -/
def stateExpirySeconds : Nat := 600

/-- SecureStateManager storage: token to the epoch-ms time it was saved. In
Redis mode the binding is the key `spotify_auth_state:<token>` holding the
JSON `{state, timestamp}` with `EX stateExpirySeconds`; in the memory
fallback it is the `global.authStates[token]` entry holding the AES-256-GCM
encryption of the same JSON (the external cipher round-trips, so the entry is
modelled by its plaintext). -/
structure SecState where
  entries : List (String × Nat)
deriving DecidableEq, Repr

/-- SecureStateManager.saveState at time `now` (both modes store under the
token with the expiry mechanism armed). -/
def secSaveState (st : SecState) (s : String) (now : Nat) : SecState :=
  ⟨alSet s now st.entries⟩

/-- The expiry mechanism as of time `now`: in Redis mode the server drops a
key once `stateExpirySeconds` have elapsed; in the memory fallback the
`setTimeout` scheduled by saveState fires after the same duration and deletes
the entry. Both amount to removing every binding older than the TTL. -/
def secExpireSweep (now : Nat) (st : SecState) : SecState :=
  ⟨st.entries.filter (fun p => decide (now < p.2 + stateExpirySeconds * 1000))⟩

/-- SecureStateManager.verifyState (lines 183-239) against the surviving
entries: a miss returns false; a hit decrypts/parses to `{state, timestamp}`
whose `state` equals the token by construction, so the entry is deleted
(single use) and true is returned. -/
def secVerifyState (st : SecState) (s : String) : Bool × SecState :=
  match alGet s st.entries with
  | some _ => (true, ⟨alRemove s st.entries⟩)
  | none => (false, st)

/-! ## ApiCache key derivation (src/utils/apiCache.ts) -/

/-- Key order used by `generateKey`: compare parameter names (the JS sort by
`keyA.localeCompare(keyB)`, modelled by the lexicographic string order). -/
def keyLE (p q : String × String) : Prop :=
  p.1 ≤ q.1

instance : DecidableRel keyLE :=
  fun p q => inferInstanceAs (Decidable (p.1 ≤ q.1))

instance : IsTotal (String × String) keyLE :=
  ⟨fun p q => le_total p.1 q.1⟩

instance : IsTrans (String × String) keyLE :=
  ⟨fun _ _ _ h h' => le_trans h h'⟩

/-- Strict version of `keyLE`, used to compare sorted parameter lists. -/
def keyLT (p q : String × String) : Prop :=
  p.1 < q.1

instance : IsAntisymm (String × String) keyLT :=
  ⟨fun _ _ h h' => absurd h' (lt_asymm h)⟩

/-- The canonical parameter string of ApiCache.generateKey (lines 57-61):
entries sorted by name, rendered `name=value`, joined with `&`. Parameter
values enter as their `String(value)` rendering. -/
def paramCanonicalString (params : List (String × String)) : String :=
  String.intercalate "&"
    ((params.insertionSort keyLE).map (fun p => p.1 ++ "=" ++ p.2))

/-- ApiCache.generateKey (lines 52-70). The md5 hex digest is an external
crypto primitive (node:crypto, not code of this repository), so the
derivation is parameterized by the digest function `md5hex`. -/
def generateKey (md5hex : String → String) (endpoint : String)
    (params : List (String × String)) (userId : String) : String :=
  "spotify_cache:" ++ userId ++ ":" ++
    md5hex (endpoint ++ "?" ++ paramCanonicalString params)

/-! # Theorems -/

theorem filter_lt_replicate (w a : Nat) (h : w < a) :
    ∀ n, (List.replicate n a).filter (fun s => decide (w < s)) =
      List.replicate n a := by
  intro n
  induction n with
  | zero => simp
  | succ n ih => simp [List.replicate_succ, List.filter, h, ih]

theorem runCalls_state (endpoint : String) (now : Nat)
    (h : now - (getRateConfig endpoint).window < now) :
    ∀ n, (runCalls endpoint now n).1 =
      ⟨List.replicate n now, List.replicate n now⟩ := by
  intro n
  induction n with
  | zero => simp [runCalls]
  | succ n ih =>
    simp only [runCalls, ih, checkLimitStep]
    simp only [filter_lt_replicate _ _ h]
    rw [← List.replicate_succ' (n := n)]

theorem callResult_eq (endpoint : String) (now k : Nat)
    (h0 : 0 < now) (hw : 0 < (getRateConfig endpoint).window) :
    callResult endpoint now k =
      ⟨decide (k - 1 ≤ (getRateConfig endpoint).limit) &&
         decide (k - 1 ≤ globalConfig.limit),
       min ((getRateConfig endpoint).limit - (k - 1))
         (globalConfig.limit - (k - 1)),
       (now + (getRateConfig endpoint).window) * 1000,
       (getRateConfig endpoint).limit⟩ := by
  have hlt : now - (getRateConfig endpoint).window < now := Nat.sub_lt h0 hw
  unfold callResult
  rw [runCalls_state endpoint now hlt]
  simp only [checkLimitStep, filter_lt_replicate _ _ hlt, List.length_replicate]

theorem alGet_eq_none_of_not_mem (s : String) :
    ∀ l : List (String × Nat), s ∉ l.map Prod.fst → alGet s l = none := by
  intro l
  induction l with
  | nil => intro _; rfl
  | cons p rest ih =>
    intro h
    simp only [List.map_cons, List.mem_cons] at h
    push_neg at h
    simp [alGet, Ne.symm h.1, ih h.2]

theorem alGet_remove_self (s : String) :
    ∀ l : List (String × Nat), (l.map Prod.fst).Nodup →
      alGet s (alRemove s l) = none := by
  intro l
  induction l with
  | nil => intro _; rfl
  | cons p rest ih =>
    intro hnd
    simp only [List.map_cons, List.nodup_cons] at hnd
    by_cases hk : p.1 = s
    · have hmem : s ∉ rest.map Prod.fst := hk ▸ hnd.1
      simp [alRemove, hk, alGet_eq_none_of_not_mem s rest hmem]
    · simp [alRemove, hk, alGet, ih hnd.2]

theorem alGet_filter_none (s : String) (p : String × Nat → Bool) :
    ∀ l : List (String × Nat), alGet s l = none →
      alGet s (l.filter p) = none := by
  intro l
  induction l with
  | nil => intro _; rfl
  | cons q rest ih =>
    intro h
    simp only [alGet] at h
    by_cases hk : q.1 = s
    · simp [hk] at h
    · have h' : alGet s rest = none := by simpa [hk] using h
      by_cases hp : p q
      · simp [List.filter, hp, alGet, hk, ih h']
      · simp [List.filter, hp, ih h']

theorem insertionSort_eq_of_perm (ps1 ps2 : List (String × String))
    (hperm : ps1.Perm ps2) (hnd : (ps1.map Prod.fst).Nodup) :
    ps1.insertionSort keyLE = ps2.insertionSort keyLE := by
  have hp : (ps1.insertionSort keyLE).Perm (ps2.insertionSort keyLE) :=
    (List.perm_insertionSort keyLE ps1).trans
      (hperm.trans (List.perm_insertionSort keyLE ps2).symm)
  have hnd1 : ((ps1.insertionSort keyLE).map Prod.fst).Nodup :=
    (((List.perm_insertionSort keyLE ps1).map Prod.fst).nodup_iff).mpr hnd
  have hnd2 : ((ps2.insertionSort keyLE).map Prod.fst).Nodup :=
    (((List.perm_insertionSort keyLE ps2).map Prod.fst).nodup_iff).mpr
      ((hperm.map Prod.fst).nodup_iff.mp hnd)
  have hne1 : (ps1.insertionSort keyLE).Pairwise (fun a b => a.1 ≠ b.1) :=
    List.pairwise_map.mp hnd1
  have hne2 : (ps2.insertionSort keyLE).Pairwise (fun a b => a.1 ≠ b.1) :=
    List.pairwise_map.mp hnd2
  have hs1 : (ps1.insertionSort keyLE).Pairwise keyLE :=
    List.sorted_insertionSort keyLE ps1
  have hs2 : (ps2.insertionSort keyLE).Pairwise keyLE :=
    List.sorted_insertionSort keyLE ps2
  have hlt1 : List.Sorted keyLT (ps1.insertionSort keyLE) :=
    (hs1.and hne1).imp (fun h => lt_of_le_of_ne h.1 h.2)
  have hlt2 : List.Sorted keyLT (ps2.insertionSort keyLE) :=
    (hs2.and hne2).imp (fun h => lt_of_le_of_ne h.1 h.2)
  exact List.eq_of_perm_of_sorted hp hlt1 hlt2

/-- C8: cache key derivation is invariant under parameter insertion order —
for every digest function, endpoint, user id and parameter list with distinct
parameter names, any reordering of the name/value pairs yields the same cache
key, because `generateKey` sorts the pairs by name before hashing. -/
theorem claim8_cache_key_order_invariant (md5hex : String → String)
    (endpoint userId : String) (ps1 ps2 : List (String × String))
    (hperm : ps1.Perm ps2) (hnd : (ps1.map Prod.fst).Nodup) :
    generateKey md5hex endpoint ps1 userId =
      generateKey md5hex endpoint ps2 userId := by
  unfold generateKey paramCanonicalString
  rw [insertionSort_eq_of_perm ps1 ps2 hperm hnd]

/-- C8 witness: the two orderings of the parameters a=1, b=2 produce the same
key for a concrete digest function. -/
theorem claim8_witness :
    ([("a", "1"), ("b", "2")] : List (String × String)).Perm
        [("b", "2"), ("a", "1")] ∧
    (([("a", "1"), ("b", "2")] : List (String × String)).map Prod.fst).Nodup ∧
    generateKey (fun s => s) "/search" [("a", "1"), ("b", "2")] "u1" =
      generateKey (fun s => s) "/search" [("b", "2"), ("a", "1")] "u1" :=
  ⟨by decide, by decide,
   claim8_cache_key_order_invariant (fun s => s) "/search" "u1"
     [("a", "1"), ("b", "2")] [("b", "2"), ("a", "1")] (by decide) (by decide)⟩

/-- C9: if the rate limiter's storage backend is unavailable — no backend
configured, or the backend transaction raises — `checkLimit` fails open: it
returns `allowed := true` (the model is a total function, so no storage error
propagates to the caller). -/
theorem claim9_rate_limiter_fails_open (hasBackend backendFails : Bool)
    (endpoint : String) (now : Nat) (st : RateState)
    (h : hasBackend = false ∨ backendFails = true) :
    (checkLimit hasBackend backendFails endpoint now st).1.allowed = true := by
  rcases h with h | h <;> cases hasBackend <;>
    simp_all [checkLimit, failOpenResult]

/-- C9 witness: both unavailability modes on a concrete call. -/
theorem claim9_witness :
    ((false : Bool) = false ∨ (false : Bool) = true) ∧
    ((true : Bool) = false ∨ (true : Bool) = true) ∧
    (checkLimit false false "/search" 1000 ⟨[], []⟩).1.allowed = true ∧
    (checkLimit true true "/search" 1000 ⟨[], []⟩).1.allowed = true :=
  ⟨Or.inl rfl, Or.inr rfl,
   claim9_rate_limiter_fails_open false false "/search" 1000 ⟨[], []⟩ (Or.inl rfl),
   claim9_rate_limiter_fails_open true true "/search" 1000 ⟨[], []⟩ (Or.inr rfl)⟩

/-- C1: the claim says `SpotifyClient.request` retries at most once on 401 and
surfaces an authentication error on the second consecutive 401. The code
(spotifyClient.ts lines 160-171) re-enters `request` on every 401 with no
retry counter, despite its own comment saying the retry happens once: against
upstream statuses 401, 401, 200 it issues a third call and returns the 200
body instead of surfacing an error after one retry, and against five
consecutive 401s it is still retrying after five calls, never surfacing an
authentication error. (Against 401 then 200 it does make exactly one retry
and succeed, so only the retry bound is broken.) -/
theorem claim1_unbounded_retry_on_repeated_401 :
    requestModel true false true [401, 401, 200] 0 = .success 3 ∧
    requestModel true false true [401, 401, 401, 401, 401] 0 = .streamEnded 5 ∧
    requestModel true false true [401, 200] 0 = .success 2 := by
  decide

/-- C2 counterexample: for `/search` the configured limit is 30 per 60 s, yet
the 31st call within the window — the (N+1)-th of the claim — is still
allowed (the code compares the pre-admission count with `<=`, so rejection
starts only at call N+2). -/
theorem claim2_counterexample_call31_allowed :
    getRateConfig "/search" = ⟨30, 60⟩ ∧
    (callResult "/search" 1000 31).allowed = true := by
  refine ⟨by decide, ?_⟩
  rw [callResult_eq "/search" 1000 31 (by decide) (by decide)]
  decide

/-- C2 (amended): with configured limit N and window W for an endpoint, calls
1 through N+1 made within the same window all return `allowed := true`
(entries of rejected calls also count, but none is rejected that early), and
the (N+2)-th call is the first to return `allowed := false` — the rejection
threshold sits one call later than the claim states, because `checkLimit`
counts the window before admitting the new entry and allows when count ≤ N. -/
theorem claim2_first_rejection_at_limit_plus_two (endpoint : String)
    (now k : Nat) (h0 : 0 < now) (hw : 0 < (getRateConfig endpoint).window)
    (hk1 : 1 ≤ k) (hk : k ≤ (getRateConfig endpoint).limit + 1)
    (hG : (getRateConfig endpoint).limit + 1 ≤ globalConfig.limit) :
    (callResult endpoint now k).allowed = true ∧
    (callResult endpoint now ((getRateConfig endpoint).limit + 2)).allowed
      = false := by
  constructor
  · rw [callResult_eq endpoint now k h0 hw]
    have h1 : k - 1 ≤ (getRateConfig endpoint).limit := by omega
    have h2 : k - 1 ≤ globalConfig.limit := by omega
    simp [h1, h2]
  · rw [callResult_eq endpoint now ((getRateConfig endpoint).limit + 2) h0 hw]
    have h1 : ¬ ((getRateConfig endpoint).limit + 2 - 1
        ≤ (getRateConfig endpoint).limit) := by omega
    simp [h1]

/-- C2 witness: the amended behavior at `/search` (limit 30): call 31 within
the window is allowed and call 32 is the first rejected. -/
theorem claim2_witness :
    (0 < 1000 ∧ 0 < (getRateConfig "/search").window ∧ 1 ≤ 31 ∧
      31 ≤ (getRateConfig "/search").limit + 1 ∧
      (getRateConfig "/search").limit + 1 ≤ globalConfig.limit) ∧
    ((callResult "/search" 1000 31).allowed = true ∧
      (callResult "/search" 1000 ((getRateConfig "/search").limit + 2)).allowed
        = false) :=
  ⟨⟨by decide, by decide, by decide, by decide, by decide⟩,
   claim2_first_rejection_at_limit_plus_two "/search" 1000 31 (by decide)
     (by decide) (by decide) (by decide) (by decide)⟩

/-- C4 counterexample: on `/search` (limit 30) the 32nd call within the window
is rejected, yet the windows do not stay unchanged — they grow from 31 to 32
entries, exceeding the configured limit, because the transaction `zadd`s the
new entry unconditionally before the verdict is computed. -/
theorem claim4_counterexample_rejected_call_admits_entry :
    getRateConfig "/search" = ⟨30, 60⟩ ∧
    (callResult "/search" 1000 32).allowed = false ∧
    (runCalls "/search" 1000 31).1.endpointEntries.length = 31 ∧
    (runCalls "/search" 1000 32).1.endpointEntries.length = 32 := by
  refine ⟨by decide, ?_, ?_, ?_⟩
  · rw [callResult_eq "/search" 1000 32 (by decide) (by decide)]
    decide
  · rw [runCalls_state "/search" 1000 (by decide)]
    simp
  · rw [runCalls_state "/search" 1000 (by decide)]
    simp

/-- C4 (amended): every `checkLimit` call — allowed or rejected — admits one
new timestamped entry into both the endpoint-specific and the global window;
the verdict only reflects the counts read before that admission. Hence after
k calls within one window both windows hold exactly k entries, a number that
exceeds the configured limit as soon as k does. -/
theorem claim4_entry_admitted_even_when_rejected (endpoint : String)
    (now k : Nat) (h0 : 0 < now) (hw : 0 < (getRateConfig endpoint).window) :
    (runCalls endpoint now k).1.endpointEntries.length = k ∧
    (runCalls endpoint now k).1.globalEntries.length = k := by
  rw [runCalls_state endpoint now (Nat.sub_lt h0 hw)]
  simp

/-- C4 witness: after 32 calls on `/search` both windows hold 32 entries. -/
theorem claim4_witness :
    (0 < 1000 ∧ 0 < (getRateConfig "/search").window) ∧
    ((runCalls "/search" 1000 32).1.endpointEntries.length = 32 ∧
      (runCalls "/search" 1000 32).1.globalEntries.length = 32) :=
  ⟨⟨by decide, by decide⟩,
   claim4_entry_admitted_even_when_rejected "/search" 1000 32 (by decide)
     (by decide)⟩

/-- C3 counterexample: the claim requires single use from both state-manager
implementations, but `StateManager.verifyState` (stateUtils.ts lines 80-93)
returns true on an unexpired memory hit without deleting the entry: after
saving token "t" at time 0 (TTL 600000 ms), a first verification at time 1
returns true and a second verification of the same token at time 2 returns
true again instead of false. -/
theorem claim3_counterexample_state_manager_reverify :
    (smVerifyState 600000 (smSaveState 600000 ⟨[], none⟩ "t" 0) "t" 1).1
      = true ∧
    (smVerifyState 600000
        (smVerifyState 600000 (smSaveState 600000 ⟨[], none⟩ "t" 0) "t" 1).2
        "t" 2).1 = true := by
  decide

/-- C3 (amended): single use holds for `SecureStateManager.verifyState` (both
the Redis mode and the encrypted memory fallback delete the entry on
successful verification), but not for `StateManager.verifyState`, which
leaves the entry in place on success and keeps returning true until expiry or
an explicit `cleanupState`. Formally, for the secure manager: whenever a
verification succeeds, any later verification of the same token (after any
amount of expiry sweeping) returns false. -/
theorem claim3_secure_state_single_use (st : SecState) (s : String) (t2 : Nat)
    (hnd : (st.entries.map Prod.fst).Nodup)
    (h1 : (secVerifyState st s).1 = true) :
    (secVerifyState (secExpireSweep t2 (secVerifyState st s).2) s).1
      = false := by
  cases halg : alGet s st.entries with
  | none => simp [secVerifyState, halg] at h1
  | some ts =>
    have h2 : alGet s (alRemove s st.entries) = none :=
      alGet_remove_self s st.entries hnd
    have h3 : alGet s
        ((alRemove s st.entries).filter
          (fun p => decide (t2 < p.2 + stateExpirySeconds * 1000))) = none :=
      alGet_filter_none s _ (alRemove s st.entries) h2
    simp [secVerifyState, halg, secExpireSweep, h3]

/-- C3 witness: a saved token verifies once and then never again through the
secure manager. -/
theorem claim3_witness :
    ((secSaveState ⟨[]⟩ "t" 0).entries.map Prod.fst).Nodup ∧
    (secVerifyState (secSaveState ⟨[]⟩ "t" 0) "t").1 = true ∧
    (secVerifyState
        (secExpireSweep 5 (secVerifyState (secSaveState ⟨[]⟩ "t" 0) "t").2)
        "t").1 = false :=
  ⟨by decide, by decide,
   claim3_secure_state_single_use (secSaveState ⟨[]⟩ "t" 0) "t" 5 (by decide)
     (by decide)⟩

/-- C6: the claim (and the verifier's own doc comment, "exists and hasn't
expired") requires every verification strictly after issuedAt + TTL to return
false in every storage mode, but the StateManager file fallback stores no
timestamp and so performs no expiry check: after saving token "t" at time 0
with TTL 600000 ms, a verification at time 600001 correctly returns false
(expired memory hit, entry removed from memory only), and a second
verification at time 600002 returns true through the state-file comparison —
an expired token is accepted. -/
theorem claim6_file_fallback_accepts_expired_state :
    (smVerifyState 600000 (smSaveState 600000 ⟨[], none⟩ "t" 0) "t" 600001).1
      = false ∧
    (smVerifyState 600000
        (smVerifyState 600000 (smSaveState 600000 ⟨[], none⟩ "t" 0)
          "t" 600001).2
        "t" 600002).1 = true := by
  decide

/-- C5: token records must persist `expires_at` as a machine-parseable
ISO-8601 timestamp. The Redis server variant's callback does (toISOString),
but the file-backed variants (src/unnamed/part_001 and part_002, and
src/get-spotify-auth.ts) persist `new Date(...).toLocaleString()` — a
display-formatted locale string — to their token files. Evaluated at
now = 1760000000000 ms with expires_in = 3600 s. -/
theorem claim5_locale_variant_persists_non_iso_expiry :
    callbackExpiresAtRedisVariant 1760000000000 3600
      = "2025-10-09T09:53:20.000Z" ∧
    isISO8601 (callbackExpiresAtRedisVariant 1760000000000 3600) = true ∧
    callbackExpiresAtFileVariant 1760000000000 3600
      = "10/9/2025, 9:53:20 AM" ∧
    isISO8601 (callbackExpiresAtFileVariant 1760000000000 3600) = false := by
  decide

/-- C7: the refresh merges of `SpotifyClient.ensureValidToken` and of the
/api/refresh-token handler retain the stored refresh token R1 when the
provider's refresh response omits `refresh_token`, adopt R2 when the response
carries `refresh_token = R2` (any non-empty token string), and take the
merged record's access token and expiry from the refresh response. -/
theorem claim7_refresh_merge (now : Nat) (tokens : TokenData)
    (resp1 resp2 : RefreshResponse) (r2 a2 : String) (n2 : Nat)
    (h1 : resp1.refresh_token = none)
    (h2 : resp2.refresh_token = some r2) (hr2 : r2 ≠ "")
    (ha : resp2.access_token = some a2)
    (hn : resp2.expires_in = some n2) (hn0 : n2 ≠ 0) :
    (mergeRefreshedTokens now tokens resp1).refresh_token
      = tokens.refresh_token ∧
    (mergeRefreshedTokens now tokens resp2).refresh_token = r2 ∧
    (mergeRefreshedTokens now tokens resp2).access_token = a2 ∧
    (mergeRefreshedTokens now tokens resp2).expires_at
      = toISOString (now + n2 * 1000) ∧
    (refreshHandlerMerge now tokens resp1 a2 n2).refresh_token
      = tokens.refresh_token ∧
    (refreshHandlerMerge now tokens resp2 a2 n2).refresh_token = r2 ∧
    (refreshHandlerMerge now tokens resp2 a2 n2).access_token = a2 ∧
    (refreshHandlerMerge now tokens resp2 a2 n2).expires_at
      = toISOString (now + n2 * 1000) := by
  simp [mergeRefreshedTokens, refreshHandlerMerge, jsOrString, jsOrNat,
    h1, h2, hr2, ha, hn, hn0]

/-- C7 witness: concrete merges with the response omitting, respectively
carrying, a refresh token. -/
theorem claim7_witness :
    ((⟨some "A2", none, none, some 3600, none⟩ :
        RefreshResponse).refresh_token = none ∧
      (⟨some "A2", none, none, some 3600, some "R2"⟩ :
        RefreshResponse).refresh_token = some "R2" ∧
      ("R2" : String) ≠ "" ∧
      (⟨some "A2", none, none, some 3600, some "R2"⟩ :
        RefreshResponse).access_token = some "A2" ∧
      (⟨some "A2", none, none, some 3600, some "R2"⟩ :
        RefreshResponse).expires_in = some 3600 ∧
      (3600 : Nat) ≠ 0) ∧
    ((mergeRefreshedTokens 1000 ⟨"A1", "Bearer", "sc", 3600, "R1", "old"⟩
        ⟨some "A2", none, none, some 3600, none⟩).refresh_token = "R1" ∧
      (mergeRefreshedTokens 1000 ⟨"A1", "Bearer", "sc", 3600, "R1", "old"⟩
        ⟨some "A2", none, none, some 3600, some "R2"⟩).refresh_token = "R2" ∧
      (mergeRefreshedTokens 1000 ⟨"A1", "Bearer", "sc", 3600, "R1", "old"⟩
        ⟨some "A2", none, none, some 3600, some "R2"⟩).access_token = "A2" ∧
      (mergeRefreshedTokens 1000 ⟨"A1", "Bearer", "sc", 3600, "R1", "old"⟩
        ⟨some "A2", none, none, some 3600, some "R2"⟩).expires_at
        = toISOString (1000 + 3600 * 1000) ∧
      (refreshHandlerMerge 1000 ⟨"A1", "Bearer", "sc", 3600, "R1", "old"⟩
        ⟨some "A2", none, none, some 3600, none⟩ "A2" 3600).refresh_token
        = "R1" ∧
      (refreshHandlerMerge 1000 ⟨"A1", "Bearer", "sc", 3600, "R1", "old"⟩
        ⟨some "A2", none, none, some 3600, some "R2"⟩ "A2" 3600).refresh_token
        = "R2" ∧
      (refreshHandlerMerge 1000 ⟨"A1", "Bearer", "sc", 3600, "R1", "old"⟩
        ⟨some "A2", none, none, some 3600, some "R2"⟩ "A2" 3600).access_token
        = "A2" ∧
      (refreshHandlerMerge 1000 ⟨"A1", "Bearer", "sc", 3600, "R1", "old"⟩
        ⟨some "A2", none, none, some 3600, some "R2"⟩ "A2" 3600).expires_at
        = toISOString (1000 + 3600 * 1000)) :=
  ⟨⟨rfl, rfl, by decide, rfl, rfl, by decide⟩,
   claim7_refresh_merge 1000 ⟨"A1", "Bearer", "sc", 3600, "R1", "old"⟩
     ⟨some "A2", none, none, some 3600, none⟩
     ⟨some "A2", none, none, some 3600, some "R2"⟩ "R2" "A2" 3600
     rfl rfl (by decide) rfl rfl (by decide)⟩

/-- C10: when the provider's refresh response omits `expires_in` (absent, or
present as the falsy 0), `ensureValidToken` stamps the merged record with a
default expiry of now + 3600 seconds, rather than failing or keeping the old
expiry. -/
theorem claim10_refresh_defaults_expiry_to_3600 (now : Nat)
    (tokens : TokenData) (resp : RefreshResponse)
    (h : resp.expires_in = none ∨ resp.expires_in = some 0) :
    (mergeRefreshedTokens now tokens resp).expires_at
      = toISOString (now + 3600 * 1000) := by
  rcases h with h | h <;> simp [mergeRefreshedTokens, jsOrNat, h]

/-- C10 witness: a refresh response with no `expires_in` field yields an
expiry of now + 3600 s. -/
theorem claim10_witness :
    ((⟨some "A2", none, none, none, none⟩ : RefreshResponse).expires_in = none ∨
      (⟨some "A2", none, none, none, none⟩ : RefreshResponse).expires_in
        = some 0) ∧
    (mergeRefreshedTokens 1000 ⟨"A1", "Bearer", "sc", 3600, "R1", "old"⟩
        ⟨some "A2", none, none, none, none⟩).expires_at
      = toISOString (1000 + 3600 * 1000) :=
  ⟨Or.inl rfl,
   claim10_refresh_defaults_expiry_to_3600 1000
     ⟨"A1", "Bearer", "sc", 3600, "R1", "old"⟩
     ⟨some "A2", none, none, none, none⟩ (Or.inl rfl)⟩
